import Mathlib

/-!
Verification development for the langgraph e-commerce analytics agent.

Shallow embedding of the orchestration core:
  * `validator`                  — src/tools.py, `validator`
  * structured-answer extraction — src/agent.py, `invoke_sub_agent` (lines 104-123)
  * `managerDecide`/`managerNode`— src/agent.py, `manager_node`
  * `invoke_sub_agent` loop      — src/agent.py, `invoke_sub_agent` (retry loop)
  * `synthesisNode`              — src/agent.py, `synthesis_node`
  * `runTurn`                    — src/agent.py, the compiled workflow (lines 238-274)
  * `agentNode`                  — src/sub_agents.py, `agent_node` (lines 54-82)
  * `compute_metrics_from_rows`  — src/sub_agents.py, `_compute_metrics_from_rows`

Python strings are modelled as `List Char`; the generation model and the
role-agent sub-graphs are external collaborators and are passed in as
oracle functions.  Machine floats are modelled as rationals (no claim
depends on float rounding artifacts).
-/

/-- Abbreviation: the character list of a string literal. -/
def chars (s : String) : List Char := s.data

/-- ASCII whitespace as recognised by Python's `str.strip` and the regex
class `\s` (space, tab, newline, carriage return, vertical tab, form feed);
non-ASCII whitespace is not exercised by any claim. -/
def pyIsSpaceB (c : Char) : Bool :=
  c = ' ' || c = '\t' || c = '\n' || c = '\r' || c = '\x0b' || c = '\x0c'

/-- Python `str.strip()`: drop leading and trailing whitespace. -/
def pyStrip (s : List Char) : List Char :=
  ((s.dropWhile pyIsSpaceB).reverse.dropWhile pyIsSpaceB).reverse

/-- Python `str.upper()` (ASCII range, as exercised by the code). -/
def pyUpper (s : List Char) : List Char := s.map Char.toUpper

/-- Python `str.lower()` (ASCII range, as exercised by the code). -/
def pyLower (s : List Char) : List Char := s.map Char.toLower

/-- Python's substring test `pat in s`. -/
def hasSub (pat : List Char) : List Char → Bool
  | [] => pat.isEmpty
  | s@(_ :: t) => pat.isPrefixOf s || hasSub pat t

/-- The remainder of `s` after the first occurrence of `pat`
(`[]` when `pat` does not occur). -/
def dropThroughFirst (pat : List Char) : List Char → List Char
  | [] => []
  | s@(_ :: t) => if pat.isPrefixOf s then s.drop pat.length else dropThroughFirst pat t

/-- The part of `s` before the first occurrence of `pat`
(all of `s` when `pat` does not occur). -/
def takeUntilSub (pat : List Char) : List Char → List Char
  | [] => []
  | s@(c :: t) => if pat.isPrefixOf s then [] else c :: takeUntilSub pat t

/-- The seven mutating-keyword tests of `validator` (src/tools.py line 25),
each keyword carrying the trailing space the source checks for, in source
order. -/
def mutatingHit (s : List Char) : Bool :=
  hasSub (chars "DROP ") s || hasSub (chars "DELETE ") s || hasSub (chars "TRUNCATE ") s ||
  hasSub (chars "ALTER ") s || hasSub (chars "UPDATE ") s || hasSub (chars "INSERT ") s ||
  hasSub (chars "CREATE ") s

/-- Model of `validator` (src/tools.py lines 17-31): shape/safety checks on a candidate
SQL string, returning `"Valid"` or a tagged `"Invalid: …"` reason. -/
def validator (sql : List Char) : String :=
  if (pyStrip sql).isEmpty then "Invalid: Empty SQL."
  else
    let s := pyUpper (pyStrip sql)
    if !((chars "SELECT").isPrefixOf s) then "Invalid: Must start with SELECT."
    else if mutatingHit s then "Invalid: Non-SELECT statements are not allowed."
    else if hasSub (chars "JOIN") s && !(hasSub (chars " ON ") s) then
      "Invalid: JOIN missing ON clause."
    else if !(hasSub (chars "BIGQUERY-PUBLIC-DATA.THELOOK_ECOMMERCE") s) then
      "Invalid: Must reference bigquery-public-data.thelook_ecommerce."
    else "Valid"

/-- Run an ordered list of (test, reason) checks over the normalised query,
returning the first failing check's reason, else `"Valid"`. -/
def runChecks (s : List Char) : List ((List Char → Bool) × String) → String
  | [] => "Valid"
  | (c, r) :: rest => if c s then r else runChecks s rest

/-- The checks of `validator` after the emptiness test, as an ordered
short-circuiting list, in the order the source applies them. -/
def validatorChecks : List ((List Char → Bool) × String) :=
  [ (fun s => !((chars "SELECT").isPrefixOf s), "Invalid: Must start with SELECT."),
    (fun s => mutatingHit s, "Invalid: Non-SELECT statements are not allowed."),
    (fun s => hasSub (chars "JOIN") s && !(hasSub (chars " ON ") s),
      "Invalid: JOIN missing ON clause."),
    (fun s => !(hasSub (chars "BIGQUERY-PUBLIC-DATA.THELOOK_ECOMMERCE") s),
      "Invalid: Must reference bigquery-public-data.thelook_ecommerce.") ]

/-- The function `validator` re-expressed as the ordered short-circuiting chain
`validatorChecks` (same checks, same order as the source). -/
def validatorChain (sql : List Char) : String :=
  if (pyStrip sql).isEmpty then "Invalid: Empty SQL."
  else runChecks (pyUpper (pyStrip sql)) validatorChecks

/-- Modelled from the spec: the validator with its checks in the order the
spec states them — non-empty, read-only leading keyword, no mutating
keyword, reference to the permitted namespace, and only then the
join-condition check.  Used to compare the spec's stated order with the
source's actual order. -/
def validator_spec_order (sql : List Char) : String :=
  if (pyStrip sql).isEmpty then "Invalid: Empty SQL."
  else runChecks (pyUpper (pyStrip sql))
    [ (fun s => !((chars "SELECT").isPrefixOf s), "Invalid: Must start with SELECT."),
      (fun s => mutatingHit s, "Invalid: Non-SELECT statements are not allowed."),
      (fun s => !(hasSub (chars "BIGQUERY-PUBLIC-DATA.THELOOK_ECOMMERCE") s),
        "Invalid: Must reference bigquery-public-data.thelook_ecommerce."),
      (fun s => hasSub (chars "JOIN") s && !(hasSub (chars " ON ") s),
        "Invalid: JOIN missing ON clause.") ]

/-! ### JSON model (Python `json.loads` / `json.dumps`, as exercised by the code)

Rational numbers stand in for Python ints/floats; the non-standard `NaN` /
`Infinity` constants Python's parser also accepts are omitted (no claim
exercises them), as is surrogate-pair decoding in `\u` escapes. -/

/-- A decoded JSON value. -/
inductive JValue : Type
  | null : JValue
  | bool : Bool → JValue
  | num : ℚ → JValue
  | str : List Char → JValue
  | arr : List JValue → JValue
  | obj : List (List Char × JValue) → JValue

/-- JSON insignificant whitespace. -/
def jIsWs (c : Char) : Bool := c = ' ' || c = '\t' || c = '\n' || c = '\r'

/-- Skip insignificant whitespace. -/
def jskipWs (s : List Char) : List Char := s.dropWhile jIsWs

/-- Value of a hex digit, if any. -/
def hexVal (c : Char) : Option Nat :=
  if 48 ≤ c.toNat ∧ c.toNat ≤ 57 then some (c.toNat - 48)
  else if 97 ≤ c.toNat ∧ c.toNat ≤ 102 then some (c.toNat - 87)
  else if 65 ≤ c.toNat ∧ c.toNat ≤ 70 then some (c.toNat - 55)
  else none

/-- Single-character JSON escapes. -/
def escMap (c : Char) : Option Char :=
  if c = '"' then some '"'
  else if c = '\\' then some '\\'
  else if c = '/' then some '/'
  else if c = 'b' then some '\x08'
  else if c = 'f' then some '\x0c'
  else if c = 'n' then some '\n'
  else if c = 'r' then some '\r'
  else if c = 't' then some '\t'
  else none

/-- Parse the body of a JSON string after the opening quote, returning the
decoded characters and the input after the closing quote.  Raw control
characters are rejected (Python's strict mode). -/
def parseStringBody : List Char → Option (List Char × List Char)
  | [] => none
  | c :: rest =>
    if c = '"' then some ([], rest)
    else if c = '\\' then
      match rest with
      | [] => none
      | e :: rest2 =>
        if e = 'u' then
          match rest2 with
          | h1 :: h2 :: h3 :: h4 :: rest3 =>
            match hexVal h1, hexVal h2, hexVal h3, hexVal h4 with
            | some a, some b, some c', some d =>
              (parseStringBody rest3).map
                (fun p => (Char.ofNat (((a * 16 + b) * 16 + c') * 16 + d) :: p.1, p.2))
            | _, _, _, _ => none
          | _ => none
        else
          match escMap e with
          | some ch => (parseStringBody rest2).map (fun p => (ch :: p.1, p.2))
          | none => none
    else if c.toNat < 32 then none
    else (parseStringBody rest).map (fun p => (c :: p.1, p.2))

/-- Decimal digit test. -/
def isDigitB (c : Char) : Bool := 48 ≤ c.toNat && c.toNat ≤ 57

/-- Natural number denoted by a digit list. -/
def natFromDigits (ds : List Char) : Nat :=
  ds.foldl (fun a c => a * 10 + (c.toNat - 48)) 0

/-- Parse a JSON number (grammar `-? int frac? exp?`), returning its value
and the rest of the input. -/
def parseNumber (s : List Char) : Option (ℚ × List Char) :=
  let (neg, s1) := match s with
    | '-' :: t => (true, t)
    | _ => (false, s)
  match s1 with
  | [] => none
  | c :: _ =>
    if !(isDigitB c) then none
    else
      let (intDs, s2) :=
        if c = '0' then (['0'], s1.tail)
        else (s1.takeWhile isDigitB, s1.dropWhile isDigitB)
      let (fracDs, s3) := match s2 with
        | '.' :: t =>
          (t.takeWhile isDigitB, t.dropWhile isDigitB)
        | _ => ([], s2)
      if (match s2 with | '.' :: _ => fracDs.isEmpty | _ => false) then none
      else
        let (expOk, expNeg, expDs, s4) := match s3 with
          | 'e' :: t | 'E' :: t =>
            let (en, t2) := match t with
              | '-' :: t2 => (true, t2)
              | '+' :: t2 => (false, t2)
              | _ => (false, t)
            (!(t2.takeWhile isDigitB).isEmpty, en, t2.takeWhile isDigitB, t2.dropWhile isDigitB)
          | _ => (true, false, [], s3)
        if !expOk then none
        else
          let base : ℚ := (natFromDigits intDs : ℚ) +
            (natFromDigits fracDs : ℚ) / ((10 : ℚ) ^ fracDs.length)
          let e : ℤ := if expNeg then -(natFromDigits expDs : ℤ) else (natFromDigits expDs : ℤ)
          let v : ℚ := (if neg then -base else base) * (10 : ℚ) ^ e
          some (v, s4)

mutual

/-- Parse one JSON value (leading whitespace allowed), returning it and the
rest of the input.  `fuel` bounds nesting and is sufficient whenever it
exceeds the input length. -/
def parseVal : Nat → List Char → Option (JValue × List Char)
  | 0, _ => none
  | fuel + 1, s0 =>
    let s := jskipWs s0
    if (chars "null").isPrefixOf s then some (JValue.null, s.drop 4)
    else if (chars "true").isPrefixOf s then some (JValue.bool true, s.drop 4)
    else if (chars "false").isPrefixOf s then some (JValue.bool false, s.drop 5)
    else
      match s with
      | '"' :: rest => (parseStringBody rest).map (fun p => (JValue.str p.1, p.2))
      | '[' :: rest =>
        (match jskipWs rest with
         | ']' :: r2 => some (JValue.arr [], r2)
         | r1 =>
           match parseVal fuel r1 with
           | some (v, r2) =>
             (parseArrTail fuel r2).map (fun p => (JValue.arr (v :: p.1), p.2))
           | none => none)
      | c :: rest =>
        if c = Char.ofNat 123 then
          (match jskipWs rest with
           | c2 :: r2 =>
             if c2 = Char.ofNat 125 then some (JValue.obj [], r2)
             else
               match parsePair fuel (c2 :: r2) with
               | some (kv, r3) =>
                 (parseObjTail fuel r3).map (fun p => (JValue.obj (kv :: p.1), p.2))
               | none => none
           | [] => none)
        else parseNumber s |>.map (fun p => (JValue.num p.1, p.2))
      | [] => none

/-- Parse the continuation of an array after one element: `, v … ]`. -/
def parseArrTail : Nat → List Char → Option (List JValue × List Char)
  | 0, _ => none
  | fuel + 1, s =>
    match jskipWs s with
    | ',' :: rest =>
      (match parseVal fuel rest with
       | some (v, r2) => (parseArrTail fuel r2).map (fun p => (v :: p.1, p.2))
       | none => none)
    | ']' :: rest => some ([], rest)
    | _ => none

/-- Parse one `"key": value` pair. -/
def parsePair : Nat → List Char → Option ((List Char × JValue) × List Char)
  | 0, _ => none
  | fuel + 1, s =>
    match jskipWs s with
    | '"' :: rest =>
      (match parseStringBody rest with
       | some (k, r2) =>
         (match jskipWs r2 with
          | ':' :: r3 =>
            (parseVal fuel r3).map (fun p => ((k, p.1), p.2))
          | _ => none)
       | none => none)
    | _ => none

/-- Parse the continuation of an object after one pair: `, pair … }`. -/
def parseObjTail : Nat → List Char → Option (List (List Char × JValue) × List Char)
  | 0, _ => none
  | fuel + 1, s =>
    match jskipWs s with
    | ',' :: rest =>
      (match parsePair fuel rest with
       | some (kv, r2) => (parseObjTail fuel r2).map (fun p => (kv :: p.1, p.2))
       | none => none)
    | c :: rest =>
      if c = Char.ofNat 125 then some ([], rest) else none
    | _ => none

end

/-- Model of `json.loads`: parse a whole string as one JSON document; fails if
anything but whitespace remains. -/
def jparse (s : List Char) : Option JValue :=
  match parseVal (s.length + 1) s with
  | some (v, rest) => if (jskipWs rest).isEmpty then some v else none
  | none => none

/-- Left brace character (kept out of string literals). -/
def lbrace : Char := Char.ofNat 123

/-- Right brace character (kept out of string literals). -/
def rbrace : Char := Char.ofNat 125

/-- Escape one character for `json.dumps` output.  The `\uXXXX` escaping of
other control and non-ASCII characters is omitted; no claim inspects such
output text. -/
def jescChar (c : Char) : List Char :=
  if c = '"' then ['\\', '"']
  else if c = '\\' then ['\\', '\\']
  else if c = '\n' then ['\\', 'n']
  else if c = '\t' then ['\\', 't']
  else if c = '\r' then ['\\', 'r']
  else [c]

/-- Rendering of a string as `json.dumps` does. -/
def jdumpStr (s : List Char) : List Char :=
  '"' :: s.foldr (fun c acc => jescChar c ++ acc) ['"']

/-- Decimal rendering of a natural number. -/
def natRepr (n : Nat) : List Char := Nat.toDigits 10 n

/-- Decimal rendering of an integer. -/
def intRepr : Int → List Char
  | Int.ofNat n => natRepr n
  | Int.negSucc n => '-' :: natRepr (n + 1)

/-- Rendering of a JSON number (integers exactly; non-integral rationals as
`num/den`, an approximation of Python's float repr that no claim inspects). -/
def numRepr (q : ℚ) : List Char :=
  if q.den = 1 then intRepr q.num else intRepr q.num ++ '/' :: natRepr q.den

mutual

/-- Model of `json.dumps` with its default separators. -/
def jdump : JValue → List Char
  | JValue.null => chars "null"
  | JValue.bool true => chars "true"
  | JValue.bool false => chars "false"
  | JValue.num q => numRepr q
  | JValue.str s => jdumpStr s
  | JValue.arr l => '[' :: jdumpArr l ++ [']']
  | JValue.obj kvs => lbrace :: jdumpObj kvs ++ [rbrace]

/-- Comma-joined array elements. -/
def jdumpArr : List JValue → List Char
  | [] => []
  | [v] => jdump v
  | v :: rest => jdump v ++ chars ", " ++ jdumpArr rest

/-- Comma-joined `"key": value` pairs. -/
def jdumpObj : List (List Char × JValue) → List Char
  | [] => []
  | [(k, v)] => jdumpStr k ++ chars ": " ++ jdump v
  | (k, v) :: rest => jdumpStr k ++ chars ": " ++ jdump v ++ chars ", " ++ jdumpObj rest

end

/-- Python `dict` lookup on a decoded object: later duplicate keys win, as in
`json.loads`. -/
def jObjGet (k : List Char) (kvs : List (List Char × JValue)) : Option JValue :=
  (kvs.reverse.find? (fun p => p.1 == k)).map (fun p => p.2)

/-- Python `str()` of a decoded JSON value (`str(parsed)` in
`invoke_sub_agent`).  Container rendering is approximated by `json.dumps`
(Python would use `repr` quoting); no claim inspects this text. -/
def pyStr : JValue → List Char
  | JValue.null => chars "None"
  | JValue.bool true => chars "True"
  | JValue.bool false => chars "False"
  | JValue.num q => numRepr q
  | JValue.str s => s
  | JValue.arr l => jdump (JValue.arr l)
  | JValue.obj kvs => jdump (JValue.obj kvs)

/-! ### Structured-answer extraction (src/agent.py, `invoke_sub_agent` lines 104-123)

Models the two `re.search` patterns and the `json.loads` fallback chain.
`re.search(r'Final Answer[:\s]*(\[.*?\])', …, re.DOTALL)`: at each
occurrence of the literal `Final Answer` (leftmost first), the greedy
`[:\s]*` consumes the maximal run of colons/whitespace — backtracking can
never help, because `[` is not in that class — then the lazy `(\[.*?\])`
requires a `[` immediately followed by characters up to the first `]`.
`re.search(r'\[.*?\]', …, re.DOTALL)` is the same bracket step tried at
every position, leftmost first. -/

/-- The lazy bracket step `\[.*?\]` anchored at the current position:
a `[` here, then everything up to the first subsequent `]`. -/
def takeToRB : List Char → Option (List Char × List Char)
  | [] => none
  | c :: t => if c = ']' then some ([], t) else (takeToRB t).map (fun p => (c :: p.1, p.2))

/-- Matched text of `\[.*?\]` anchored at the current position. -/
def bracketTake : List Char → Option (List Char)
  | '[' :: rest => (takeToRB rest).map (fun p => '[' :: p.1 ++ [']'])
  | _ => none

/-- Leftmost match of `re.search(r'Final Answer[:\s]*(\[.*?\])', s, re.DOTALL)`,
returning group 1. -/
def faSearch : List Char → Option (List Char)
  | [] => none
  | s@(_ :: t) =>
    if (chars "Final Answer").isPrefixOf s then
      match bracketTake ((s.drop 12).dropWhile (fun c => c = ':' || pyIsSpaceB c)) with
      | some b => some b
      | none => faSearch t
    else faSearch t

/-- Leftmost match of `re.search(r'\[.*?\]', s, re.DOTALL)`. -/
def firstBracketed : List Char → Option (List Char)
  | [] => none
  | s@(_ :: t) =>
    match bracketTake s with
    | some b => some b
    | none => firstBracketed t

/-- The bracketed list located by stage 1 (labelled `Final Answer`) or,
failing that, stage 2 (first bracketed list anywhere). -/
def locateBracketed (s : List Char) : Option (List Char) :=
  match faSearch s with
  | some js => some js
  | none => firstBracketed s

/-- Stage 3 of the chain: `json.loads` on the whole text, then
`parsed_full.get("insights", [])`; any failure (unparseable text, or a
non-`dict` result raising `AttributeError`) is caught by the bare `except`
and yields `'[]'`.  The subsequent `json.dumps`/`json.loads` round trip is
the identity on the extracted value. -/
def stage3Value (s : List Char) : JValue :=
  match jparse s with
  | some (JValue.obj kvs) => (jObjGet (chars "insights") kvs).getD (JValue.arr [])
  | _ => JValue.arr []

/-- Line 119: `insights_list = parsed if isinstance(parsed, list) else [str(parsed)]`. -/
def toInsightsList : JValue → List JValue
  | JValue.arr l => l
  | v => [JValue.str (pyStr v)]

/-- The structured-answer extraction of `invoke_sub_agent`
(src/agent.py lines 104-119), producing `insights_list`.  A bracketed list
located by stage 1 or stage 2 that `json.loads` cannot parse raises
`ValueError` (`Except.error`), which the enclosing retry loop catches as a
failed attempt; stage 3 cannot fail. -/
def extractInsights (content : List Char) : Except Unit (List JValue) :=
  match faSearch content with
  | some js =>
    match jparse js with
    | some v => Except.ok (toInsightsList v)
    | none => Except.error ()
  | none =>
    match firstBracketed content with
    | some js =>
      match jparse js with
      | some v => Except.ok (toInsightsList v)
      | none => Except.error ()
    | none => Except.ok (toInsightsList (stage3Value content))

/-! ### Chain-of-thought capture (src/agent.py line 121)

`re.search(r'Reasoning[:\s]*([^.\n]*?)(?=\n|Final|$)', …, re.DOTALL | re.IGNORECASE)`:
at each case-insensitive occurrence of `Reasoning` (leftmost first), the
greedy `[:\s]*` tries separator runs longest-first (backtracking matters
here, since the capture class overlaps `\s`); the lazy capture then takes
the shortest run of non-`.`/non-newline characters after which the
lookahead (newline, case-insensitive `Final`, or end of input) holds. -/

/-- Case-insensitive literal prefix test (`pat` given in lower case). -/
def ciPrefix (pat s : List Char) : Bool := pyLower (s.take pat.length) == pat

/-- The lookahead `(?=\n|Final|$)` (case-insensitive). -/
def cotLook (s : List Char) : Bool :=
  s.isEmpty || s.head? == some '\n' || ciPrefix (chars "final") s

/-- The lazy capture `[^.\n]*?` up to the first position where the
lookahead holds; `none` when a `.` or newline blocks it first. -/
def cotCapture : List Char → Option (List Char)
  | [] => some []
  | s@(c :: t) =>
    if cotLook s then some []
    else if c ≠ '.' && c ≠ '\n' then (cotCapture t).map (fun r => c :: r)
    else none

/-- Try separator runs of length `k, k-1, …, 0` (greedy `[:\s]*` with
backtracking). -/
def cotBacktrack (s : List Char) : Nat → Option (List Char)
  | 0 => cotCapture s
  | k + 1 =>
    match cotCapture (s.drop (k + 1)) with
    | some r => some r
    | none => cotBacktrack s k

/-- Leftmost overall match of the chain-of-thought regex, returning group 1. -/
def cotSearch : List Char → Option (List Char)
  | [] => none
  | s@(_ :: t) =>
    if ciPrefix (chars "reasoning") s then
      match cotBacktrack (s.drop 9)
          ((s.drop 9).takeWhile (fun c => c = ':' || pyIsSpaceB c)).length with
      | some r => some r
      | none => cotSearch t
    else cotSearch t

/-- Line 122: `cot = cot_match.group(1).strip() if cot_match else ""`. -/
def cotOf (content : List Char) : List Char := pyStrip ((cotSearch content).getD [])

/-! ### The sub-agent retry loop (src/agent.py, `invoke_sub_agent` lines 98-147)

The role-agent sub-graph is an external collaborator: attempt `retry` is
modelled by `oracle retry`, whose `Except.error` case is an exception
raised by `agent.invoke` (carrying `str(e)`) and whose `Except.ok` case is
the content of the final message of the sub-graph's result.  A successful
attempt then runs the structured-answer extraction; a `ValueError` raised
there is caught by the same `except` clause and also consumes a retry.
Reflection (`reflect_chain`) only appends a message to the trimmed state
and never affects control flow, so it is not represented. -/

/-- Outcome of `invoke_sub_agent`: the parsed-insight payload of the final
message, the success flag, and how many times the Role Agent was invoked. -/
structure SubOutcome where
  items : List JValue
  success : Bool
  lastError : List Char
  execs : Nat

/-- Model of `parsed_insights_with_cot` (src/agent.py line 123): `insights_list` is
always a list (line 119), so the non-list branch of line 123 is dead code. -/
def mkItemsWithCot (l : List JValue) (cot : List Char) : List JValue :=
  l.map (fun i => JValue.obj [(chars "text", i), (chars "cot", JValue.str cot)])

/-- The fallback insight text (src/agent.py line 143). -/
def fallbackText : List Char := chars "Fallback: Unable to generate insights after retries."

/-- The fallback final-message payload (src/agent.py line 144). -/
def fallbackItem : JValue :=
  JValue.obj [(chars "text", JValue.str fallbackText), (chars "cot", JValue.str [])]

/-- The fallback outcome of a failed final iteration
(src/agent.py lines 142-147). -/
def fallbackOutcome (e : List Char) (retry : Nat) : SubOutcome :=
  { items := [fallbackItem], success := false, lastError := e, execs := retry + 1 }

/-- One iteration of the `for retry in range(max_retries)` loop of
`invoke_sub_agent`: `some out` when the iteration returns, `none` when the
`except` clause reflects and continues with the next iteration.  The
`ValueError` message stands for the text of the `json.loads` exception. -/
def invokeStep (oracle : Nat → Except (List Char) (List Char)) (maxRetries retry : Nat) :
    Option SubOutcome :=
  match oracle retry with
  | Except.ok content =>
    match extractInsights content with
    | Except.ok l =>
      some { items := mkItemsWithCot l (cotOf content), success := true,
             lastError := [], execs := retry + 1 }
    | Except.error _ =>
      if retry < maxRetries - 1 then none
      else some (fallbackOutcome (chars "ValueError") retry)
  | Except.error e =>
    if retry < maxRetries - 1 then none
    else some (fallbackOutcome e retry)

/-- The loop of `invoke_sub_agent` from iteration `retry` on.  `fuel` only
makes the recursion structural; the fallback taken when it runs out is dead
code whenever `fuel ≥ maxRetries - retry`, because the final iteration
(`retry = maxRetries - 1`) always returns. -/
def invokeLoop (oracle : Nat → Except (List Char) (List Char)) (maxRetries : Nat) :
    Nat → Nat → SubOutcome
  | retry, 0 => (invokeStep oracle maxRetries retry).getD (fallbackOutcome [] retry)
  | retry, fuel + 1 =>
    match invokeStep oracle maxRetries retry with
    | some out => out
    | none => invokeLoop oracle maxRetries (retry + 1) fuel

/-- Model of `invoke_sub_agent(agent, state, max_retries)` (src/agent.py line 98). -/
def invoke_sub_agent (oracle : Nat → Except (List Char) (List Char))
    (maxRetries : Nat) : SubOutcome :=
  invokeLoop oracle maxRetries 0 maxRetries

/-! ### Router/Manager (src/agent.py, `manager_node` lines 51-82) -/

/-- The routing decision taken from the model's response content
(src/agent.py lines 61-80): `final_content = response.content.strip()`,
then the `next: off_topic` / `Clarify:` / `next: ` substring branches;
`final_content.split("next: ")[1].strip()` is the text between the first
occurrence of `"next: "` and the following one (or the end), stripped. -/
def managerDecide (content : List Char) : List Char :=
  let fc := pyStrip content
  if hasSub (chars "next: off_topic") fc then chars "synthesis"
  else if hasSub (chars "Clarify:") fc then chars "synthesis"
  else if hasSub (chars "next: ") fc then
    pyStrip (takeUntilSub (chars "next: ") (dropThroughFirst (chars "next: ") fc))
  else chars "synthesis"

/-- The structured insight record of the graph state
(src/state.py `insights` entries: `{"agent": …, "text": …, "cot": …}`;
the Manager's off-topic entry carries no `cot` key, which behaves exactly
like an empty one downstream). -/
structure Insight where
  agent : List Char
  text : JValue
  cot : List Char

/-- The Manager's off-topic insight (src/agent.py line 64). -/
def managerOffTopicInsight : Insight :=
  { agent := chars "Manager",
    text := JValue.str (chars "Off-topic prompt: Focus on e-commerce analysis."),
    cot := [] }

/-- Model of `manager_node` (src/agent.py lines 51-82): given the message history and
the routing model's response (`none` models a raised exception, replaced by
`"next: synthesis"` on line 60), returns the chosen `next` value, whether
the classification model was invoked, and the insight appended in the
off-topic branch. -/
def managerNode (messages : List (List Char)) (resp : Option (List Char)) :
    List Char × Bool × Option Insight :=
  if messages.isEmpty then (chars "synthesis", false, none)
  else
    let content := match resp with
      | some r => r
      | none => chars "next: synthesis"
    (managerDecide content, true,
      if hasSub (chars "next: off_topic") (pyStrip content) then some managerOffTopicInsight
      else none)

/-- The branch targets of the Manager's conditional edges
(src/agent.py lines 247-251). -/
def routeTargets : List (List Char) :=
  [chars "segmentation", chars "trends", chars "geo", chars "product", chars "synthesis"]

/-- The four Role Agent node names among the branch targets. -/
def roleNodeNames : List (List Char) :=
  [chars "segmentation", chars "trends", chars "geo", chars "product"]

/-! ### Synthesizer (src/agent.py, `synthesis_node` lines 220-236)

The generation backend is an external collaborator: `llmResp = some content`
models a successful `llm.invoke(...).content`, `none` a raised exception.
The `errors` key is always present in the graph state (main.py initialises
it), so `error_summary` is always `json.dumps(state["errors"])`. -/

/-- Line 226: `\x7bk: v for k, v in i.items() if k != 'cot'\x7d`: the serialised form of one
insight. -/
def insightNoCot (i : Insight) : JValue :=
  JValue.obj [(chars "agent", JValue.str i.agent), (chars "text", i.text)]

/-- Model of `formatted_insights` (src/agent.py line 226). -/
def serializeInsights (l : List Insight) : List Char :=
  jdump (JValue.arr (l.map insightNoCot))

/-- Model of `json.dumps(state.get("errors", []))`. -/
def serializeErrors (l : List JValue) : List Char := jdump (JValue.arr l)

/-- Model of `formatted_cot` (src/agent.py line 228): newline-joined non-empty `cot`
fields. -/
def joinCots (l : List Insight) : List Char :=
  List.intercalate ['\n'] (l.filterMap (fun i => if i.cot.isEmpty then none else some i.cot))

/-- The fixed no-insights diagnostic report (src/agent.py line 223). -/
def synthDiagText (errors : List JValue) : List Char :=
  chars "No insights generated—check manager delegation or sub-agent output. Errors: " ++
    serializeErrors errors

/-- Model of `synthesis_node`: returns the report text and whether the generation
backend was invoked. -/
def synthesisNode (insights : List Insight) (errors : List JValue)
    (llmResp : Option (List Char)) : List Char × Bool :=
  if insights.isEmpty then (synthDiagText errors, false)
  else
    match llmResp with
    | some content =>
      (content ++ chars "\n\n## Reasoning Trace\n" ++ joinCots insights, true)
    | none => (chars "Synthesis failed—raw insights: " ++ serializeInsights insights, true)

/-! ### One traversal of the orchestration graph (src/agent.py lines 238-274)

Nodes and edges as compiled: START → manager; conditional edges from
manager keyed by `state["next"]` over the mapping on lines 247-251 — a
`next` value absent from that mapping makes the langgraph runtime raise an
unhandled error, modelled as `Except.error`; each Role Agent node routes to
summarizer (which only appends a summary message) or synthesis, and
summarizer routes to synthesis, so the report always comes from
`synthesis_node`; synthesis → END.  The initial state of a turn (main.py
lines 46-54) carries the user prompt as the only message and empty
`insights` and `errors`. -/

/-- The display label each Role Agent node writes into its insight
(src/agent.py lines 153, 162, 171, 180). -/
def roleLabel (next : List Char) : List Char :=
  if next == chars "segmentation" then chars "Segmentation"
  else if next == chars "trends" then chars "Trends"
  else if next == chars "geo" then chars "Geo"
  else chars "Product"

/-- Field `i["text"]` of one `parsed_insights_with_cot` entry. -/
def textOf (j : JValue) : JValue :=
  match j with
  | JValue.obj kvs => (jObjGet (chars "text") kvs).getD JValue.null
  | _ => JValue.null

/-- Field `i["cot"]` of one `parsed_insights_with_cot` entry, as a string. -/
def cotFieldOf (j : JValue) : List Char :=
  match j with
  | JValue.obj kvs =>
    match jObjGet (chars "cot") kvs with
    | some (JValue.str s) => s
    | _ => []
  | _ => []

/-- The insight a Role Agent node appends on success
(e.g. src/agent.py line 162). -/
def roleInsight (next : List Char) (sub : SubOutcome) : Insight :=
  { agent := roleLabel next,
    text := JValue.arr (sub.items.map textOf),
    cot := match sub.items with
      | i :: _ => cotFieldOf i
      | [] => [] }

/-- The `state["errors"]` entry appended by `invoke_sub_agent`
(src/agent.py lines 129 and 146); `str(agent)` is modelled by the node
name. -/
def roleErrEntry (next : List Char) (sub : SubOutcome) : JValue :=
  if sub.success then
    JValue.obj [(chars "type", JValue.str (chars "success")),
                (chars "agent", JValue.str next),
                (chars "retry", JValue.num ((sub.execs : ℚ) - 1))]
  else
    JValue.obj [(chars "type", JValue.str (chars "fallback")),
                (chars "agent", JValue.str next),
                (chars "error", JValue.str sub.lastError),
                (chars "retries", JValue.num 3)]

/-- Observable outcome of one completed graph traversal. -/
structure TurnOut where
  report : List Char
  routerModelCalled : Bool
  roleAgentRuns : Nat
  synthBackendCalled : Bool

/-- One top-level traversal of the compiled workflow.  `messages` is the
initial message history, `managerResp` the routing model's response
(`none` = raised), `roleOracle` the Role Agent sub-graph's per-attempt
behaviour, `synthResp` the Synthesizer backend's response (`none` =
raised).  `Except.error next` models the langgraph error raised when the
Manager's `next` value is not a key of the conditional-edge mapping. -/
def runTurn (messages : List (List Char)) (managerResp : Option (List Char))
    (roleOracle : Nat → Except (List Char) (List Char))
    (synthResp : Option (List Char)) : Except (List Char) TurnOut :=
  let m := managerNode messages managerResp
  let next := m.1
  let insights0 : List Insight := match m.2.2 with
    | some i => [i]
    | none => []
  if roleNodeNames.contains next then
    let sub := invoke_sub_agent roleOracle 3
    let insights1 := insights0 ++ (if sub.success then [roleInsight next sub] else [])
    let errors1 := [roleErrEntry next sub]
    let syn := synthesisNode insights1 errors1 synthResp
    Except.ok { report := syn.1, routerModelCalled := m.2.1,
                roleAgentRuns := sub.execs, synthBackendCalled := syn.2 }
  else if next == chars "synthesis" then
    let syn := synthesisNode insights0 [] synthResp
    Except.ok { report := syn.1, routerModelCalled := m.2.1,
                roleAgentRuns := 0, synthBackendCalled := syn.2 }
  else Except.error next

/-! ### Role Agent Reason step (src/sub_agents.py, `agent_node` lines 54-82) -/

/-- A model response: its text content and its tool-call requests
(individual calls are opaque here; only their presence matters). -/
structure ModelResp where
  content : List Char
  toolCalls : List Unit

/-- The prompt-variable bundle `agent_node` passes to `chain.invoke`. -/
structure AgentArgs where
  input : List Char
  memory : List Char
  schema : List Char
  context : List Char

/-- The degenerate-response test (src/sub_agents.py lines 65-67):
no tool calls and no `"final answer:"` substring in the lowered content. -/
def degenerateResp (r : ModelResp) : Bool :=
  r.toolCalls.isEmpty && !(hasSub (chars "final answer:") (pyLower r.content))

/-- The synthetic follow-up instruction (src/sub_agents.py lines 68-73). -/
def followupText (question : List Char) : List Char :=
  question ++ chars "\n\nFollow-up: Use tools now. First call validator with a valid BigQuery SQL built from the schema; then call query_database with that SQL; only then produce Final Answer. Do not ask me for SQL."

/-- Model of `agent_node`: one Reason step; on a degenerate first response, exactly
one re-invocation with the follow-up instruction.  `model` is the bound
LLM chain; `question` is the content of the last message of the sub-state. -/
def agentNode (model : AgentArgs → ModelResp)
    (question memory schema context : List Char) : List ModelResp :=
  let first := model ⟨question, memory, schema, context⟩
  if degenerateResp first then
    [first, model ⟨followupText question, memory, schema, context⟩]
  else [first]

/-! ### Metrics (src/sub_agents.py, `_compute_metrics_from_rows` lines 207-215)

A row's `orders`/`revenue` field is `none` when the key is missing or its
value is `null` — Python maps both to `0` via `.get(..., 0) or 0`
(a present falsy `0`/`0.0` also lands on `0`, which is numerically the
same).  Numbers are rationals; `round(x, 2)` is modelled arithmetically
(Python's float round-half-to-even differs only at exact half-cent values,
which no claim exercises). -/

/-- One result row. -/
structure SalesRow where
  orders : Option ℚ
  revenue : Option ℚ

/-- Python `int(...)`: truncation toward zero. -/
def pyTrunc (q : ℚ) : ℤ := if 0 ≤ q then ⌊q⌋ else ⌈q⌉

/-- Python `round(x, 2)` on exact values. -/
def pyRound2 (q : ℚ) : ℚ := (round (q * 100) : ℤ) / 100

/-- The computed metrics dict. -/
structure Metrics where
  total_orders : ℤ
  total_revenue : ℚ
  aov : ℚ

/-- Model of `_compute_metrics_from_rows`. -/
def compute_metrics_from_rows (rows : List SalesRow) : Metrics :=
  let total_orders : ℚ := (rows.map (fun r => r.orders.getD 0)).sum
  let total_revenue : ℚ := (rows.map (fun r => r.revenue.getD 0)).sum
  let aov : ℚ := if total_orders ≠ 0 then total_revenue / total_orders else 0
  { total_orders := pyTrunc total_orders,
    total_revenue := pyRound2 total_revenue,
    aov := pyRound2 aov }

/-! ### Helper lemmas -/

/-- Transitivity of the boolean list-prefix test. -/
theorem isPrefixOf_trans : ∀ {p q r : List Char},
    p.isPrefixOf q = true → q.isPrefixOf r = true → p.isPrefixOf r = true := by
  intro p
  induction p with
  | nil => intro q r _ _; simp [List.isPrefixOf]
  | cons a p' ih =>
    intro q r h1 h2
    cases q with
    | nil => simp [List.isPrefixOf] at h1
    | cons b q' =>
      cases r with
      | nil => simp [List.isPrefixOf] at h2
      | cons c r' =>
        simp only [List.isPrefixOf, Bool.and_eq_true, beq_iff_eq] at h1 h2 ⊢
        exact ⟨h1.1.trans h2.1, ih h1.2 h2.2⟩

/-- Substring containment is antitone in the pattern: any substring occurrence
of `q` yields one of each boolean-prefix `p` of `q`. -/
theorem hasSub_mono {p q : List Char} (s : List Char) (hpq : p.isPrefixOf q = true)
    (h : hasSub q s = true) : hasSub p s = true := by
  induction s with
  | nil =>
    simp only [hasSub] at h ⊢
    rw [List.isEmpty_iff] at h
    subst h
    cases p with
    | nil => rfl
    | cons a t => simp [List.isPrefixOf] at hpq
  | cons c t ih =>
    simp only [hasSub, Bool.or_eq_true] at h ⊢
    rcases h with h | h
    · exact Or.inl (isPrefixOf_trans hpq h)
    · exact Or.inr (ih h)

/-- The report produced by `synthesis_node` is never empty, whatever the
insights, errors and backend outcome. -/
theorem synthesisNode_fst_ne_nil (i : List Insight) (e : List JValue)
    (l : Option (List Char)) : (synthesisNode i e l).1 ≠ [] := by
  unfold synthesisNode
  by_cases hi : i.isEmpty = true
  · rw [if_pos hi]
    simp only [synthDiagText]
    intro hcontra
    rcases List.append_eq_nil.mp hcontra with ⟨h1, _⟩
    exact absurd h1 (by decide)
  · rw [if_neg hi]
    cases l with
    | some content =>
      dsimp
      intro hcontra
      rcases List.append_eq_nil.mp hcontra with ⟨h1, _⟩
      rcases List.append_eq_nil.mp h1 with ⟨_, h3⟩
      exact absurd h3 (by decide)
    | none =>
      dsimp
      intro hcontra
      rcases List.append_eq_nil.mp hcontra with ⟨h1, _⟩
      exact absurd h1 (by decide)

/-- Any returning iteration of the loop has invoked the Role Agent
`retry + 1` times in total. -/
theorem invokeStep_execs (oracle : Nat → Except (List Char) (List Char))
    (m retry : Nat) (out : SubOutcome) (h : invokeStep oracle m retry = some out) :
    out.execs = retry + 1 := by
  unfold invokeStep at h
  split at h
  · split at h
    · cases h; rfl
    · split at h
      · cases h
      · cases h; rfl
  · split at h
    · cases h
    · cases h; rfl

/-- Within one call of `invoke_sub_agent`, the loop starting at iteration
`r < m` invokes the Role Agent at most `m` times in total. -/
theorem invokeLoop_execs_le (oracle : Nat → Except (List Char) (List Char))
    (m : Nat) : ∀ f r, r < m → (invokeLoop oracle m r f).execs ≤ m := by
  intro f
  induction f with
  | zero =>
    intro r hr
    cases hs : invokeStep oracle m r with
    | some out =>
      simp only [invokeLoop, hs, Option.getD_some]
      rw [invokeStep_execs oracle m r out hs]
      omega
    | none => simp only [invokeLoop, hs, Option.getD_none, fallbackOutcome]; omega
  | succ f ih =>
    intro r hr
    cases hs : invokeStep oracle m r with
    | some out =>
      simp only [invokeLoop, hs]
      rw [invokeStep_execs oracle m r out hs]
      omega
    | none =>
      simp only [invokeLoop, hs]
      by_cases hr1 : r + 1 < m
      · exact ih (r + 1) hr1
      · -- when `r + 1 = m` the step at `r = m - 1` always returns, so
        -- `invokeStep` cannot be `none`
        exfalso
        unfold invokeStep at hs
        split at hs
        · split at hs
          · cases hs
          · split at hs
            · omega
            · cases hs
        · split at hs
          · omega
          · cases hs

/-! ### Claim theorems -/

/-- C1 (counterexample): with a Role Agent whose sub-graph raises on every
attempt, `invoke_sub_agent` (called with `max_retries=3` by every role node)
invokes the same Role Agent three times in one turn — more than the twice
the claim allows. -/
theorem C1_counterexample_three_runs :
    (invoke_sub_agent (fun _ => Except.error (chars "invoke error")) 3).execs = 3 ∧
    ¬ ((invoke_sub_agent (fun _ => Except.error (chars "invoke error")) 3).execs ≤ 2) := by
  constructor
  · rfl
  · decide

/-- C1 (amended): within one turn, however the attempts fail, a role node's
single `invoke_sub_agent(agent, state, max_retries=3)` call executes the
Role Agent at most three times — one initial run plus at most two
reflection-guided retries, not at most one retry as claimed. -/
theorem C1_role_agent_runs_at_most_three_times
    (oracle : Nat → Except (List Char) (List Char)) :
    (invoke_sub_agent oracle 3).execs ≤ 3 :=
  invokeLoop_execs_le oracle 3 3 0 (by omega)

/-- C2 (counterexample): this input contains the mutating keyword `drop`
(as its final word), yet `validator` returns `"Valid"` — the source's
keyword tests require a trailing space, so a keyword at the end of the
query escapes them. -/
theorem C2_counterexample_trailing_keyword_accepted :
    hasSub (chars "drop")
      (chars "SELECT * FROM bigquery-public-data.thelook_ecommerce.orders drop") = true ∧
    validator (chars "SELECT * FROM bigquery-public-data.thelook_ecommerce.orders drop") =
      "Valid" := by
  constructor
  · decide
  · rfl

/-- C2 (amended): for every input whose stripped, upper-cased form contains
a mutating keyword followed by a space, `validator` returns a tagged
`Invalid` result, regardless of surrounding text, letter case, or position
of the keyword. -/
theorem C2_mutating_keyword_space_rejected (sql : List Char)
    (h : mutatingHit (pyUpper (pyStrip sql)) = true) :
    (chars "Invalid").isPrefixOf (validator sql).data = true := by
  have hne : ¬ ((pyStrip sql).isEmpty = true) := by
    intro he
    rw [List.isEmpty_iff] at he
    rw [he] at h
    revert h
    decide
  unfold validator
  rw [if_neg hne]
  by_cases hsel : (chars "SELECT").isPrefixOf (pyUpper (pyStrip sql)) = true
  · simp only [hsel, Bool.not_true, Bool.false_eq_true, if_false, h, if_true]
    decide
  · rw [Bool.not_eq_true] at hsel
    simp only [hsel, Bool.not_false, if_true]
    decide

/-- C2 (witness): the amended theorem applied to `"DROP TABLE x"`. -/
theorem C2_mutating_keyword_space_rejected_witness :
    mutatingHit (pyUpper (pyStrip (chars "DROP TABLE x"))) = true ∧
    (chars "Invalid").isPrefixOf (validator (chars "DROP TABLE x")).data = true :=
  ⟨by decide, C2_mutating_keyword_space_rejected (chars "DROP TABLE x") (by decide)⟩

/-- C3 (counterexample): on input `"[a]"` the extraction locates a
bracketed list at stage 2 but `json.loads` fails on it, and instead of
falling through to the next stage the extraction raises a `ValueError`
(caught only by the enclosing retry loop) — so a parse failure at stage 2
does not fall through, and an exception is raised. -/
theorem C3_counterexample_malformed_bracket_raises :
    locateBracketed (chars "[a]") = some (chars "[a]") ∧
    jparse (chars "[a]") = none ∧
    extractInsights (chars "[a]") = Except.error () := ⟨rfl, rfl, rfl⟩

/-- C3 (amended): for every raw model-response string, the extraction
applies the ordered fallback chain and either returns a list — in
particular a whole-text parse failure at stage 3 yields the empty list —
or raises a parse error, which happens exactly when the bracketed list
located by stage 1 or stage 2 is not valid JSON; in that case the error is
caught by the enclosing retry loop as a failed attempt rather than falling
through to the next stage. -/
theorem C3_extraction_ok_or_located_parse_error (content : List Char) :
    (∃ l, extractInsights content = Except.ok l) ∨
    (∃ js, locateBracketed content = some js ∧ jparse js = none ∧
      extractInsights content = Except.error ()) := by
  rcases hfa : faSearch content with _ | js
  · rcases hfb : firstBracketed content with _ | js
    · exact Or.inl ⟨toInsightsList (stage3Value content),
        by simp [extractInsights, hfa, hfb]⟩
    · rcases hp : jparse js with _ | v
      · exact Or.inr ⟨js, by simp [locateBracketed, hfa, hfb],
          hp, by simp [extractInsights, hfa, hfb, hp]⟩
      · exact Or.inl ⟨toInsightsList v, by simp [extractInsights, hfa, hfb, hp]⟩
  · rcases hp : jparse js with _ | v
    · exact Or.inr ⟨js, by simp [locateBracketed, hfa], hp,
        by simp [extractInsights, hfa, hp]⟩
    · exact Or.inl ⟨toInsightsList v, by simp [extractInsights, hfa, hp]⟩

/-- C4 (counterexample): a routing response carrying the marker but an
unrecognised agent name produces a `next` value outside the conditional-edge
mapping of the workflow — not one of the defined decisions, and not the
synthesis default. -/
theorem C4_counterexample_unknown_route_value :
    managerDecide (chars "next: banana") = chars "banana" ∧
    routeTargets.contains (managerDecide (chars "next: banana")) = false := ⟨rfl, rfl⟩

/-- C4 (amended): a routing response that fails to parse — one containing
no `"next: "` marker at all, such as the empty string or gibberish — makes
the Router default to synthesis; but when the marker is present, the text
after it is taken verbatim as the decision and may fall outside the
defined decision set. -/
theorem C4_markerless_response_defaults_to_synthesis (content : List Char)
    (h : hasSub (chars "next: ") (pyStrip content) = false) :
    managerDecide content = chars "synthesis" := by
  have h1 : hasSub (chars "next: off_topic") (pyStrip content) = false := by
    cases hh : hasSub (chars "next: off_topic") (pyStrip content)
    · rfl
    · have := hasSub_mono (pyStrip content) (p := chars "next: ")
        (q := chars "next: off_topic") (by decide) hh
      rw [this] at h
      cases h
  unfold managerDecide
  by_cases hc : hasSub (chars "Clarify:") (pyStrip content) = true
  · simp [h1, hc]
  · rw [Bool.not_eq_true] at hc
    simp [h1, hc, h]

/-- C4 (witness): the amended theorem applied to the gibberish response
`"who knows"`. -/
theorem C4_markerless_response_defaults_to_synthesis_witness :
    hasSub (chars "next: ") (pyStrip (chars "who knows")) = false ∧
    managerDecide (chars "who knows") = chars "synthesis" :=
  ⟨by decide, C4_markerless_response_defaults_to_synthesis (chars "who knows") (by decide)⟩

/-- C5: for every combination of insights and errors (including both empty)
and every generation-backend outcome, the Synthesizer returns non-empty
report text; with no insights it emits the fixed diagnostic message
embedding the recorded errors and does not call the generation backend;
and on a generation-backend failure it falls back to the raw serialized
insights. -/
theorem C5_synthesizer_totality (insights : List Insight) (errors : List JValue)
    (llmResp : Option (List Char)) :
    (synthesisNode insights errors llmResp).1 ≠ [] ∧
    (insights = [] → synthesisNode insights errors llmResp = (synthDiagText errors, false)) ∧
    (insights ≠ [] → synthesisNode insights errors none =
      (chars "Synthesis failed—raw insights: " ++ serializeInsights insights, true)) := by
  refine ⟨synthesisNode_fst_ne_nil insights errors llmResp, ?_, ?_⟩
  · intro hi
    subst hi
    rfl
  · intro hi
    unfold synthesisNode
    rw [if_neg (by simpa [List.isEmpty_iff] using hi)]

/-- C5 (witness): the theorem applied with no insights, no errors and a
failing backend. -/
theorem C5_synthesizer_totality_witness :
    synthesisNode [] [] none = (synthDiagText [], false) ∧
    (synthesisNode [] [] none).1 ≠ [] :=
  ⟨(C5_synthesizer_totality [] [] none).2.1 rfl, (C5_synthesizer_totality [] [] none).1⟩

/-- C6 (counterexample): a traversal in which the routing model answers
`"next: banana"` makes the conditional edge lookup fail, and the turn
raises an unhandled graph-routing error instead of completing with a
report. -/
theorem C6_counterexample_unmapped_route_raises :
    runTurn [chars "hi"] (some (chars "next: banana"))
      (fun _ => Except.error []) none = Except.error (chars "banana") := rfl

/-- C6 (amended): a top-level traversal completes with non-empty report
text whenever the Manager's decision lands in the conditional-edge mapping
(the four Role Agents or synthesis, which covers every parse-failure
default); a decision outside the mapping — possible when the routing model
answers `next: X` with an unrecognised `X` — raises an unhandled
graph-routing error out of the invocation. -/
theorem C6_mapped_route_always_reports (messages : List (List Char))
    (managerResp : Option (List Char))
    (roleOracle : Nat → Except (List Char) (List Char))
    (synthResp : Option (List Char))
    (hmem : routeTargets.contains (managerNode messages managerResp).1 = true) :
    ∃ t, runTurn messages managerResp roleOracle synthResp = Except.ok t ∧
      t.report ≠ [] := by
  by_cases hrole : roleNodeNames.contains (managerNode messages managerResp).1 = true
  · simp only [runTurn]
    rw [if_pos hrole]
    exact ⟨_, rfl, synthesisNode_fst_ne_nil _ _ _⟩
  · have hsyn : ((managerNode messages managerResp).1 == chars "synthesis") = true := by
      have hmem' : (managerNode messages managerResp).1 ∈ routeTargets := by
        simpa using hmem
      have hrole' : (managerNode messages managerResp).1 ∉ roleNodeNames := by
        simpa using hrole
      simp only [routeTargets, List.mem_cons, List.not_mem_nil, or_false] at hmem'
      simp only [roleNodeNames, List.mem_cons, List.not_mem_nil, or_false,
        not_or] at hrole'
      rcases hmem' with h | h | h | h | h
      · exact absurd h hrole'.1
      · exact absurd h hrole'.2.1
      · exact absurd h hrole'.2.2.1
      · exact absurd h hrole'.2.2.2
      · simp [h]
    simp only [runTurn]
    rw [if_neg hrole, if_pos hsyn]
    exact ⟨_, rfl, synthesisNode_fst_ne_nil _ _ _⟩

/-- C6 (witness): the amended theorem applied to a turn routed to the
trends Role Agent whose sub-graph raises on every attempt. -/
theorem C6_mapped_route_always_reports_witness :
    routeTargets.contains
      (managerNode [chars "q"] (some (chars "next: trends"))).1 = true ∧
    ∃ t, runTurn [chars "q"] (some (chars "next: trends"))
      (fun _ => Except.error (chars "boom")) none = Except.ok t ∧ t.report ≠ [] :=
  ⟨by decide, C6_mapped_route_always_reports [chars "q"] (some (chars "next: trends"))
    (fun _ => Except.error (chars "boom")) none (by decide)⟩

/-- C7 (counterexample): on `"SELECT * FROM foo JOIN bar"` — which fails
both the namespace check and the join-condition check — the source returns
the join-condition reason, while the spec's stated order (namespace before
join) would return the namespace reason. -/
theorem C7_counterexample_join_checked_first :
    validator (chars "SELECT * FROM foo JOIN bar") =
      "Invalid: JOIN missing ON clause." ∧
    validator_spec_order (chars "SELECT * FROM foo JOIN bar") =
      "Invalid: Must reference bigquery-public-data.thelook_ecommerce." ∧
    validator (chars "SELECT * FROM foo JOIN bar") ≠
      validator_spec_order (chars "SELECT * FROM foo JOIN bar") := by
  refine ⟨rfl, rfl, ?_⟩
  decide

/-- C7 (amended): `validator` applies its checks in this order,
short-circuiting on the first failure and returning that check's tagged
reason string: non-empty, read-only leading keyword (`SELECT`), no
mutating keyword, join condition required when a `JOIN` clause is present,
and only then the reference to the permitted data source namespace — the
join check precedes the namespace check, unlike the spec's stated order. -/
theorem C7_validator_check_order (sql : List Char) :
    validator sql = validatorChain sql := rfl

/-- C8: if the Reason step's first model response contains neither a tool
call nor a terminal `final answer:`, the agent re-invokes the model exactly
once with the synthetic follow-up instruction appended to the question; a
first response with a tool call or a final answer is returned alone. -/
theorem C8_degenerate_reason_single_followup (model : AgentArgs → ModelResp)
    (question memory schema context : List Char) :
    (degenerateResp (model ⟨question, memory, schema, context⟩) = true →
      agentNode model question memory schema context =
        [model ⟨question, memory, schema, context⟩,
         model ⟨followupText question, memory, schema, context⟩]) ∧
    (degenerateResp (model ⟨question, memory, schema, context⟩) = false →
      agentNode model question memory schema context =
        [model ⟨question, memory, schema, context⟩]) := by
  constructor
  · intro h
    unfold agentNode
    rw [if_pos h]
  · intro h
    unfold agentNode
    rw [if_neg (by simp [h])]

/-- C8 (witness): the theorem applied to a model that always answers with
plain text and no tool calls — degenerate, so exactly one follow-up. -/
theorem C8_degenerate_reason_single_followup_witness :
    degenerateResp ((fun _ : AgentArgs => ModelResp.mk (chars "which year?") [])
      ⟨chars "sales?", [], [], []⟩) = true ∧
    agentNode (fun _ : AgentArgs => ModelResp.mk (chars "which year?") [])
      (chars "sales?") [] [] [] =
      [ModelResp.mk (chars "which year?") [], ModelResp.mk (chars "which year?") []] :=
  ⟨by decide, (C8_degenerate_reason_single_followup
    (fun _ : AgentArgs => ModelResp.mk (chars "which year?") [])
    (chars "sales?") [] [] []).1 (by decide)⟩

/-- C9: with an empty message history the Manager sets `next` to synthesis
and returns without invoking the classification model, and the whole turn
— whatever the oracles would answer — produces exactly the Synthesizer's
no-insights diagnostic report without running any Role Agent or calling
the generation backend. -/
theorem C9_empty_history_short_circuits
    (managerResp : Option (List Char))
    (roleOracle : Nat → Except (List Char) (List Char))
    (synthResp : Option (List Char)) :
    managerNode [] managerResp = (chars "synthesis", false, none) ∧
    runTurn [] managerResp roleOracle synthResp =
      Except.ok { report := synthDiagText [], routerModelCalled := false,
                  roleAgentRuns := 0, synthBackendCalled := false } :=
  ⟨rfl, rfl⟩

/-- C10: the metrics computation is total — a row
with missing or null `orders`/`revenue` contributes zero to both totals,
and a zero total order count yields an average order value of `0.0` rather
than a division-by-zero error. -/
theorem C10_metrics_total_and_safe (rows : List SalesRow) :
    compute_metrics_from_rows ({ orders := none, revenue := none } :: rows) =
      compute_metrics_from_rows rows ∧
    ((rows.map (fun r => r.orders.getD 0)).sum = 0 →
      (compute_metrics_from_rows rows).aov = 0) := by
  constructor
  · unfold compute_metrics_from_rows
    simp
  · intro h
    unfold compute_metrics_from_rows
    simp only [h]
    norm_num [pyRound2]

/-- C10 (witness): the theorem applied to a single row with zero orders
and non-zero revenue. -/
theorem C10_metrics_total_and_safe_witness :
    (([⟨some 0, some 5⟩] : List SalesRow).map (fun r => r.orders.getD 0)).sum = 0 ∧
    (compute_metrics_from_rows [⟨some 0, some 5⟩]).aov = 0 :=
  ⟨by simp, (C10_metrics_total_and_safe [⟨some 0, some 5⟩]).2 (by simp)⟩
